import Mathlib

/-!
# Verification of the Multi-Model Routing & Fallback Engine

Shallow embedding of `app/services/multi_model_service.py` and
`app/models/ai_models.py` from the Uranus-AI backend.

Modelling conventions:
* Python `float` values (costs, timestamps, latencies) are modelled as exact
  rationals (`ℚ`); all cost literals in the static table are exact decimals.
* Python dictionaries are modelled as insertion-ordered association lists.
* The upstream provider SDK calls (network I/O) are modelled as oracle
  functions supplied as parameters: `Upstream` for buffered calls and
  `StreamUpstream` for streaming calls.  A raised Python exception is an
  `Except.error`.
* Mutable per-request service state (`self.usage_stats`) is threaded
  explicitly; `generateResponse` returns the result together with the
  updated stats dictionary.
* For the aliasing behaviour of `get_usage_stats` (which returns
  `self.usage_stats.copy()`, a shallow copy) a small explicit-heap model is
  used, since object identity is invisible to a value-level embedding.
-/

/-- The `AIProvider` enum from `app/models/ai_models.py`. -/
inductive AIProvider where
  | openai
  | anthropic
  | google
  | xai
  | deepseek
  | ollama
  | azure_openai
  | cohere
  | mistral
deriving DecidableEq

/-- The `ModelCapability` enum from `app/models/ai_models.py`. -/
inductive ModelCapability where
  | chat
  | code_completion
  | code_analysis
  | function_calling
  | vision
  | long_context
deriving DecidableEq

/-- The `ModelInfo` dataclass: static descriptor of one model.
`cost_per_1k_tokens : Optional[float]` is modelled as `Option ℚ`. -/
structure ModelInfo where
  id : String
  name : String
  provider : AIProvider
  max_tokens : Nat
  context_length : Nat
  capabilities : List ModelCapability
  cost_per_1k_tokens : Option ℚ
  description : String
  supports_streaming : Bool
deriving DecidableEq

/-- One chat message (`{"role": ..., "content": ...}` dict). -/
structure Message where
  role : String
  content : String
deriving DecidableEq

/-- Token usage dictionary attached to a response. -/
structure UsageTokens where
  prompt_tokens : Nat
  completion_tokens : Nat
  total_tokens : Nat
deriving DecidableEq

/-- The `AIModelRequest` pydantic model.  `temperature : Optional[float] = 0.7`
is modelled as a plain rational (the adapters pass it through unchanged). -/
structure AIModelRequest where
  model_id : String
  provider : AIProvider
  messages : List Message
  max_tokens : Option Nat
  temperature : ℚ
  stream : Bool
  context : Option String
deriving DecidableEq

/-- The `AIModelResponse` pydantic model.  `metadata : Optional[Dict[str, Any]]`
is modelled as `Option String`; the service never populates it. -/
structure AIModelResponse where
  content : String
  model_id : String
  provider : AIProvider
  usage : Option UsageTokens
  finish_reason : Option String
  metadata : Option String
deriving DecidableEq

/-- The `ModelConfiguration` pydantic model (per-model credentials entry). -/
structure ModelConfiguration where
  model_id : String
  provider : AIProvider
  api_key : String
  api_base : Option String
  api_version : Option String
  organization : Option String
  enabled : Bool
  default_params : List (String × String)
deriving DecidableEq

/-- The `MultiModelConfig` pydantic model (fallback configuration). -/
structure MultiModelConfig where
  default_model : String
  models : List (String × ModelConfiguration)
  fallback_models : List String
  enable_model_switching : Bool
  enable_cost_optimization : Bool
deriving DecidableEq

/-- The `ModelUsageStats` dataclass from `multi_model_service.py`. -/
structure ModelUsageStats where
  total_requests : Nat
  total_tokens : Nat
  total_cost : ℚ
  avg_response_time : ℚ
  error_count : Nat
  last_used : Option ℚ
deriving DecidableEq

/-- Field defaults of the `ModelUsageStats` dataclass. -/
def emptyStats : ModelUsageStats :=
  { total_requests := 0, total_tokens := 0, total_cost := 0,
    avg_response_time := 0, error_count := 0, last_used := none }

/-! ## The static model table (`AVAILABLE_MODELS`)

Each entry is a `(dict key, ModelInfo)` pair in the source's insertion
order.  Note that the three Claude entries and the two Mistral entries are
stored under alias keys that differ from the descriptor's own `id` field,
exactly as in the source. -/

def gpt4Info : ModelInfo :=
  { id := "gpt-4", name := "GPT-4", provider := .openai,
    max_tokens := 8192, context_length := 8192,
    capabilities := [.chat, .code_completion, .code_analysis, .function_calling],
    cost_per_1k_tokens := some (mkRat 3 100),
    description := "Most capable OpenAI model, excellent for complex reasoning",
    supports_streaming := true }

def gpt4TurboInfo : ModelInfo :=
  { id := "gpt-4-turbo", name := "GPT-4 Turbo", provider := .openai,
    max_tokens := 4096, context_length := 128000,
    capabilities := [.chat, .code_completion, .code_analysis, .function_calling,
      .vision, .long_context],
    cost_per_1k_tokens := some (mkRat 1 100),
    description := "Latest GPT-4 with 128k context and vision capabilities",
    supports_streaming := true }

def gpt35TurboInfo : ModelInfo :=
  { id := "gpt-3.5-turbo", name := "GPT-3.5 Turbo", provider := .openai,
    max_tokens := 4096, context_length := 16385,
    capabilities := [.chat, .code_completion, .function_calling],
    cost_per_1k_tokens := some (mkRat 1 1000),
    description := "Fast and cost-effective for most tasks",
    supports_streaming := true }

def claude3OpusInfo : ModelInfo :=
  { id := "claude-3-opus-20240229", name := "Claude 3 Opus", provider := .anthropic,
    max_tokens := 4096, context_length := 200000,
    capabilities := [.chat, .code_analysis, .long_context, .vision],
    cost_per_1k_tokens := some (mkRat 15 1000),
    description := "Most powerful Claude model, excellent for complex analysis",
    supports_streaming := true }

def claude3SonnetInfo : ModelInfo :=
  { id := "claude-3-sonnet-20240229", name := "Claude 3 Sonnet", provider := .anthropic,
    max_tokens := 4096, context_length := 200000,
    capabilities := [.chat, .code_analysis, .long_context, .vision],
    cost_per_1k_tokens := some (mkRat 3 1000),
    description := "Balanced performance and cost",
    supports_streaming := true }

def claude3HaikuInfo : ModelInfo :=
  { id := "claude-3-haiku-20240307", name := "Claude 3 Haiku", provider := .anthropic,
    max_tokens := 4096, context_length := 200000,
    capabilities := [.chat, .code_completion, .long_context],
    cost_per_1k_tokens := some (mkRat 25 100000),
    description := "Fastest Claude model, great for quick responses",
    supports_streaming := true }

def geminiProInfo : ModelInfo :=
  { id := "gemini-pro", name := "Gemini Pro", provider := .google,
    max_tokens := 8192, context_length := 32768,
    capabilities := [.chat, .code_analysis, .function_calling],
    cost_per_1k_tokens := some (mkRat 5 10000),
    description := "Google's most capable model",
    supports_streaming := true }

def geminiProVisionInfo : ModelInfo :=
  { id := "gemini-pro-vision", name := "Gemini Pro Vision", provider := .google,
    max_tokens := 8192, context_length := 32768,
    capabilities := [.chat, .code_analysis, .vision],
    cost_per_1k_tokens := some (mkRat 5 10000),
    description := "Gemini with vision capabilities",
    supports_streaming := true }

def grokBetaInfo : ModelInfo :=
  { id := "grok-beta", name := "Grok Beta", provider := .xai,
    max_tokens := 4096, context_length := 131072,
    capabilities := [.chat, .code_analysis, .long_context],
    cost_per_1k_tokens := some (mkRat 5 1000),
    description := "xAI's conversational AI with real-time knowledge",
    supports_streaming := true }

def deepseekCoderInfo : ModelInfo :=
  { id := "deepseek-coder", name := "DeepSeek Coder", provider := .deepseek,
    max_tokens := 4096, context_length := 16384,
    capabilities := [.chat, .code_completion, .code_analysis],
    cost_per_1k_tokens := some (mkRat 14 10000),
    description := "Specialized for code generation and analysis",
    supports_streaming := true }

def deepseekChatInfo : ModelInfo :=
  { id := "deepseek-chat", name := "DeepSeek Chat", provider := .deepseek,
    max_tokens := 4096, context_length := 32768,
    capabilities := [.chat, .code_analysis],
    cost_per_1k_tokens := some (mkRat 14 10000),
    description := "General purpose conversational model",
    supports_streaming := true }

def llama2Info : ModelInfo :=
  { id := "llama2", name := "Llama 2", provider := .ollama,
    max_tokens := 4096, context_length := 4096,
    capabilities := [.chat, .code_completion],
    cost_per_1k_tokens := some 0,
    description := "Meta's Llama 2 running locally",
    supports_streaming := true }

def codellamaInfo : ModelInfo :=
  { id := "codellama", name := "Code Llama", provider := .ollama,
    max_tokens := 4096, context_length := 16384,
    capabilities := [.code_completion, .code_analysis],
    cost_per_1k_tokens := some 0,
    description := "Specialized code model running locally",
    supports_streaming := true }

def mistralLargeInfo : ModelInfo :=
  { id := "mistral-large-latest", name := "Mistral Large", provider := .mistral,
    max_tokens := 8192, context_length := 32768,
    capabilities := [.chat, .code_analysis, .function_calling],
    cost_per_1k_tokens := some (mkRat 8 1000),
    description := "Mistral's most capable model",
    supports_streaming := true }

def mistralMediumInfo : ModelInfo :=
  { id := "mistral-medium-latest", name := "Mistral Medium", provider := .mistral,
    max_tokens := 8192, context_length := 32768,
    capabilities := [.chat, .code_analysis],
    cost_per_1k_tokens := some (mkRat 27 10000),
    description := "Balanced performance model",
    supports_streaming := true }

def commandRPlusInfo : ModelInfo :=
  { id := "command-r-plus", name := "Command R+", provider := .cohere,
    max_tokens := 4096, context_length := 128000,
    capabilities := [.chat, .code_analysis, .long_context],
    cost_per_1k_tokens := some (mkRat 3 1000),
    description := "Cohere's most advanced model",
    supports_streaming := true }

/-- The `AVAILABLE_MODELS` dictionary, as an insertion-ordered association list. -/
def AVAILABLE_MODELS : List (String × ModelInfo) :=
  [ ("gpt-4", gpt4Info),
    ("gpt-4-turbo", gpt4TurboInfo),
    ("gpt-3.5-turbo", gpt35TurboInfo),
    ("claude-3-opus", claude3OpusInfo),
    ("claude-3-sonnet", claude3SonnetInfo),
    ("claude-3-haiku", claude3HaikuInfo),
    ("gemini-pro", geminiProInfo),
    ("gemini-pro-vision", geminiProVisionInfo),
    ("grok-beta", grokBetaInfo),
    ("deepseek-coder", deepseekCoderInfo),
    ("deepseek-chat", deepseekChatInfo),
    ("llama2", llama2Info),
    ("codellama", codellamaInfo),
    ("mistral-large", mistralLargeInfo),
    ("mistral-medium", mistralMediumInfo),
    ("command-r-plus", commandRPlusInfo) ]

/-- Lookup `AVAILABLE_MODELS.get(model_id)` / `MultiModelService.get_model_info`. -/
def lookupModel (model_id : String) : Option ModelInfo :=
  (AVAILABLE_MODELS.find? (fun p => p.1 == model_id)).map (·.2)

/-- The dictionary keys of `AVAILABLE_MODELS` that are aliases: the stored
descriptor's `id` field differs from the key (the versioned Claude ids and
the `-latest` Mistral ids). -/
def aliasKeys : List String :=
  ["claude-3-opus", "claude-3-sonnet", "claude-3-haiku",
   "mistral-large", "mistral-medium"]

/-! ## Registry filter queries (`ai_models.py`) -/

/-- Filter `get_models_by_capability`: dict-value order is preserved. -/
def get_models_by_capability (capability : ModelCapability) : List ModelInfo :=
  (AVAILABLE_MODELS.map (·.2)).filter (fun m => m.capabilities.contains capability)

/-- Filter `get_models_by_provider`. -/
def get_models_by_provider (provider : AIProvider) : List ModelInfo :=
  (AVAILABLE_MODELS.map (·.2)).filter (fun m => m.provider == provider)

/-- Sort key used by `get_cheapest_models` (`lambda x: x.cost_per_1k_tokens`;
only applied after models with `None` cost have been filtered out). -/
def costOf (m : ModelInfo) : ℚ := m.cost_per_1k_tokens.getD 0

/-- Stable insertion: the new element goes after all existing elements whose
key is less than or equal to its own, matching the stability guarantee of
Python's `sorted`. -/
def insertByCost (x : ModelInfo) : List ModelInfo → List ModelInfo
  | [] => [x]
  | y :: ys => if costOf x < costOf y then x :: y :: ys else y :: insertByCost x ys

/-- Stable sort by cost (model of Python's stable `sorted`). -/
def sortByCost (l : List ModelInfo) : List ModelInfo :=
  l.foldl (fun acc x => insertByCost x acc) []

/-- Query `get_cheapest_models(capability, limit)`. -/
def get_cheapest_models (capability : ModelCapability) (limit : Nat) : List ModelInfo :=
  let models := get_models_by_capability capability
  let models_with_cost := models.filter (fun m => m.cost_per_1k_tokens.isSome)
  (sortByCost models_with_cost).take limit

/-- Position of a descriptor in the static table (descriptor ids are
pairwise distinct), used to state sort stability. -/
def tableIdx (m : ModelInfo) : Nat :=
  (AVAILABLE_MODELS.map (·.2)).findIdx (fun x => x.id == m.id)

/-! ## Upstream provider oracles

The provider SDK calls are network I/O; they are modelled as oracle
functions received as parameters.  Each oracle receives exactly the data
the adapter sends upstream (so the embedding makes visible which request
fields influence a call) and returns either the provider's reply or a
raised-exception message. -/

/-- Payload of an OpenAI-shaped `chat.completions.create` call.
Buffered calls resolve `max_tokens` before sending; the streaming path
passes `request.max_tokens` through unresolved, hence `Option Nat`. -/
structure OpenAICall where
  model : String
  messages : List Message
  max_tokens : Option Nat
  temperature : ℚ
deriving DecidableEq

/-- Reply of an OpenAI-shaped completions endpoint. -/
structure OpenAIReply where
  content : String
  usage : Option UsageTokens
  finish_reason : Option String
deriving DecidableEq

/-- Payload of an Anthropic `messages.create` call (system instruction
already extracted from the turn list). -/
structure AnthropicCall where
  model : String
  max_tokens : Nat
  temperature : ℚ
  system : Option String
  messages : List Message
deriving DecidableEq

/-- Reply of the Anthropic messages endpoint (distinct input/output token
naming). -/
structure AnthropicReply where
  content : String
  input_tokens : Nat
  output_tokens : Nat
  stop_reason : Option String
deriving DecidableEq

/-- Payload of a Gemini `generate_content` call (messages flattened into a
single prompt string). -/
structure GoogleCall where
  model : String
  prompt : String
  max_output_tokens : Nat
  temperature : ℚ
deriving DecidableEq

/-- Reply of the Gemini endpoint; `usage_metadata` may be absent. -/
structure GoogleReply where
  text : String
  usage_metadata : Option UsageTokens
  finish_reason : Option String
deriving DecidableEq

/-- Buffered-call oracles, one per provider family.  The `AIProvider`
argument of `openai` identifies which OpenAI-compatible client (base URL)
receives the call. -/
structure Upstream where
  openai : AIProvider → OpenAICall → Except String OpenAIReply
  anthropic : AnthropicCall → Except String AnthropicReply
  google : GoogleCall → Except String GoogleReply

/-- Streaming-call oracles: the list is the finite sequence of text
fragments the upstream stream yields. -/
structure StreamUpstream where
  openai : AIProvider → OpenAICall → Except String (List String)
  anthropic : AnthropicCall → Except String (List String)

/-! ## Errors

`_call_model` raises `ValueError` for the unknown-model, missing-client and
unsupported-provider cases; upstream failures propagate as SDK exceptions.
`generate_response` wraps any final failure in
`Exception("All models failed. Last error: ...")`. -/

/-- Errors raised out of `_call_model`. -/
inductive CallError where
  | unknownModel (id : String)
  | clientNotConfigured (p : AIProvider)
  | unsupportedProvider (p : AIProvider)
  | providerCallFailed (detail : String)
deriving DecidableEq

/-- Error raised out of `generate_response`.  The carried `CallError` is
the one interpolated into the `"All models failed. Last error: {e}"`
message: the error of the *primary* attempt (the loop's fallback errors are
logged and discarded). -/
inductive GenError where
  | allModelsFailed (e : CallError)
deriving DecidableEq

deriving instance DecidableEq for Except

/-! ## Provider adapters (`_call_openai`, `_call_anthropic`, `_call_google`,
`_call_openai_compatible`) -/

/-- System-instruction extraction in `_call_anthropic` /
`_stream_anthropic`: the loop keeps the content of the *last*
`role == "system"` message (starting from `""`). -/
def anthropicSystemOf (msgs : List Message) : String :=
  msgs.foldl (fun acc m => if m.role = "system" then m.content else acc) ""

/-- The non-system messages forwarded to Anthropic, original order. -/
def anthropicMessagesOf (msgs : List Message) : List Message :=
  msgs.filter (fun m => !(m.role == "system"))

/-- Prompt flattening in `_call_google`:
`"Human"` for user turns, `"Assistant"` otherwise, then a final
`"Assistant:"`. -/
def googlePromptOf (msgs : List Message) : String :=
  (msgs.foldl
    (fun acc m =>
      acc ++ (if m.role = "user" then "Human" else "Assistant") ++ ": " ++ m.content ++ "\n")
    "") ++ "Assistant:"

/-- Adapter `_call_openai`.  The source reads `response.usage.prompt_tokens` etc.
without a guard, so a reply without a usage object raises (an
`AttributeError`), which the caller sees as a failed call. -/
def call_openai (up : Upstream) (request : AIModelRequest) (mi : ModelInfo) :
    Except CallError AIModelResponse :=
  match up.openai mi.provider
      { model := request.model_id, messages := request.messages,
        max_tokens := some (request.max_tokens.getD mi.max_tokens),
        temperature := request.temperature } with
  | .error s => .error (.providerCallFailed s)
  | .ok reply =>
    match reply.usage with
    | none => .error (.providerCallFailed "AttributeError: response.usage is None")
    | some u =>
      .ok { content := reply.content, model_id := request.model_id,
            provider := mi.provider, usage := some u,
            finish_reason := reply.finish_reason, metadata := none }

/-- Adapter `_call_openai_compatible` (xAI, DeepSeek, Ollama, Mistral): like
`_call_openai` but usage fields default to `0` when the reply omits the
usage object. -/
def call_openai_compatible (up : Upstream) (request : AIModelRequest) (mi : ModelInfo) :
    Except CallError AIModelResponse :=
  match up.openai mi.provider
      { model := request.model_id, messages := request.messages,
        max_tokens := some (request.max_tokens.getD mi.max_tokens),
        temperature := request.temperature } with
  | .error s => .error (.providerCallFailed s)
  | .ok reply =>
    .ok { content := reply.content, model_id := request.model_id,
          provider := mi.provider,
          usage := some
            { prompt_tokens := ((reply.usage.map (·.prompt_tokens)).getD 0),
              completion_tokens := ((reply.usage.map (·.completion_tokens)).getD 0),
              total_tokens := ((reply.usage.map (·.total_tokens)).getD 0) },
          finish_reason := reply.finish_reason, metadata := none }

/-- Adapter `_call_anthropic`: extracts the system message, reassembles usage from
input/output token counts and surfaces `stop_reason`. -/
def call_anthropic (up : Upstream) (request : AIModelRequest) (mi : ModelInfo) :
    Except CallError AIModelResponse :=
  let sys := anthropicSystemOf request.messages
  match up.anthropic
      { model := request.model_id,
        max_tokens := request.max_tokens.getD mi.max_tokens,
        temperature := request.temperature,
        system := if sys = "" then none else some sys,
        messages := anthropicMessagesOf request.messages } with
  | .error s => .error (.providerCallFailed s)
  | .ok reply =>
    .ok { content := reply.content, model_id := request.model_id,
          provider := mi.provider,
          usage := some
            { prompt_tokens := reply.input_tokens,
              completion_tokens := reply.output_tokens,
              total_tokens := reply.input_tokens + reply.output_tokens },
          finish_reason := reply.stop_reason, metadata := none }

/-- Adapter `_call_google`: flattens messages into a prompt; usage fields default
to `0` when `usage_metadata` is absent. -/
def call_google (up : Upstream) (request : AIModelRequest) (mi : ModelInfo) :
    Except CallError AIModelResponse :=
  match up.google
      { model := request.model_id, prompt := googlePromptOf request.messages,
        max_output_tokens := request.max_tokens.getD mi.max_tokens,
        temperature := request.temperature } with
  | .error s => .error (.providerCallFailed s)
  | .ok reply =>
    .ok { content := reply.text, model_id := request.model_id,
          provider := mi.provider,
          usage := some
            { prompt_tokens := ((reply.usage_metadata.map (·.prompt_tokens)).getD 0),
              completion_tokens := ((reply.usage_metadata.map (·.completion_tokens)).getD 0),
              total_tokens := ((reply.usage_metadata.map (·.total_tokens)).getD 0) },
          finish_reason := reply.finish_reason, metadata := none }

/-- Dispatch `_call_model`: resolve the descriptor (unknown model fails), resolve
the provider client (missing client fails), then dispatch on the
descriptor's provider — the caller-supplied `request.provider` is never
consulted.  `azure_openai` and `cohere` reach the final
`"Unsupported provider"` branch. -/
def callModel (clients : AIProvider → Bool) (up : Upstream)
    (request : AIModelRequest) : Except CallError AIModelResponse :=
  match lookupModel request.model_id with
  | none => .error (.unknownModel request.model_id)
  | some mi =>
    if clients mi.provider then
      match mi.provider with
      | .openai => call_openai up request mi
      | .anthropic => call_anthropic up request mi
      | .google => call_google up request mi
      | .xai => call_openai_compatible up request mi
      | .deepseek => call_openai_compatible up request mi
      | .ollama => call_openai_compatible up request mi
      | .mistral => call_openai_compatible up request mi
      | p => .error (.unsupportedProvider p)
    else .error (.clientNotConfigured mi.provider)

/-! ## Usage tracker (`_update_usage_stats`, `_update_error_stats`) -/

/-- The tracker table `self.usage_stats`: a dict keyed by model id. -/
def UsageDict := List (String × ModelUsageStats)
deriving DecidableEq

/-- Python-dict upsert: apply `f` to the existing entry, or to a fresh
default-initialized `ModelUsageStats` when the key is absent (the source
inserts `ModelUsageStats()` first and then mutates it). -/
def dictUpdate : UsageDict → String → (ModelUsageStats → ModelUsageStats) → UsageDict
  | [], k, f => [(k, f emptyStats)]
  | (k', v) :: rest, k, f =>
    if k' = k then (k', f v) :: rest else (k', v) :: dictUpdate rest k f

/-- The entry-level mutation performed by `_update_usage_stats`
(lines 397–420): increment the request count, set `last_used`, add the
reported total tokens when a usage object is present, add the cost delta
when the model is known, has a truthy (non-`None`, non-zero) cost and usage
is present, then recompute the running average with the *post-increment*
request count.  `start` and `now` are the two `time.time()` readings, so
the elapsed time is `now - start`. -/
def updateStatsEntry (s : ModelUsageStats) (mi : Option ModelInfo)
    (usage : Option UsageTokens) (start now : ℚ) : ModelUsageStats :=
  let n := s.total_requests + 1
  let tokens :=
    match usage with
    | some u => s.total_tokens + u.total_tokens
    | none => s.total_tokens
  let cost :=
    match mi, usage with
    | some info, some u =>
      match info.cost_per_1k_tokens with
      | some c =>
        if c = 0 then s.total_cost
        else s.total_cost + ((u.total_tokens : ℚ) / 1000) * c
      | none => s.total_cost
    | _, _ => s.total_cost
  { total_requests := n, total_tokens := tokens, total_cost := cost,
    avg_response_time :=
      (s.avg_response_time * ((n : ℚ) - 1) + (now - start)) / (n : ℚ),
    error_count := s.error_count, last_used := some now }

/-- Tracker entry after `N` consecutive successful calls to the same model,
each reporting `T` total tokens with elapsed time `E`, starting from the
dataclass defaults: iterated application of the entry-level mutation of
`_update_usage_stats` (the scenario of the usage-accounting property). -/
def iterateSuccess (mi : Option ModelInfo) : Nat → Nat → ℚ → ModelUsageStats
  | 0, _, _ => emptyStats
  | Nat.succ k, T, E =>
    updateStatsEntry (iterateSuccess mi k T E) mi (some ⟨0, 0, T⟩) 0 E

/-- Dict-level `_update_usage_stats(model_id, start_time, response)`. -/
def updateUsageStats (d : UsageDict) (model_id : String) (start now : ℚ)
    (resp : AIModelResponse) : UsageDict :=
  dictUpdate d model_id
    (fun s => updateStatsEntry s (lookupModel model_id) resp.usage start now)

/-- Failure path `_update_error_stats(model_id)`: increments the error count only. -/
def updateErrorStats (d : UsageDict) (model_id : String) : UsageDict :=
  dictUpdate d model_id (fun s => { s with error_count := s.error_count + 1 })

/-! ## Routing and fallback (`generate_response`) -/

/-- The fallback loop of `generate_response` (lines 146–160): walk the
configured list in order; skip an entry equal to the original request's
model id; skip an entry absent from `AVAILABLE_MODELS` (the `KeyError`
from `AVAILABLE_MODELS[fallback_model_id]` is caught by the inner
`except`); otherwise retry with a copied request whose model id and
provider are overwritten, with no nested fallback.  The first success wins
and updates the fallback model's usage stats. -/
def tryFallbacks (clients : AIProvider → Bool) (up : Upstream)
    (request : AIModelRequest) (start now : ℚ) (d : UsageDict) :
    List String → Option (AIModelResponse × UsageDict)
  | [] => none
  | fb :: rest =>
    if fb = request.model_id then tryFallbacks clients up request start now d rest
    else
      match lookupModel fb with
      | none => tryFallbacks clients up request start now d rest
      | some mi =>
        match callModel clients up { request with model_id := fb, provider := mi.provider } with
        | .ok resp => some (resp, updateUsageStats d fb start now resp)
        | .error _ => tryFallbacks clients up request start now d rest

/-- Entry point `generate_response(request, fallback)`.  On primary success the
*request's* model id is credited.  On primary failure, the fallback loop
runs when the flag is set, a config is present and its list is non-empty
(looping over an empty list is a no-op, so the truthiness guard and the
empty list coincide); if nothing succeeds, the *primary* model's error
count is incremented and `AllModelsFailed` is raised carrying the primary
attempt's error. -/
def generateResponse (cfg : Option MultiModelConfig) (clients : AIProvider → Bool)
    (up : Upstream) (fallback : Bool) (d : UsageDict) (request : AIModelRequest)
    (start now : ℚ) : Except GenError AIModelResponse × UsageDict :=
  match callModel clients up request with
  | .ok resp => (.ok resp, updateUsageStats d request.model_id start now resp)
  | .error e =>
    let fbs := if fallback then (match cfg with | some c => c.fallback_models | none => []) else []
    match tryFallbacks clients up request start now d fbs with
    | some (resp, d') => (.ok resp, d')
    | none => (.error (.allModelsFailed e), updateErrorStats d request.model_id)

/-! ## Streaming (`stream_response`, `_stream_model`) -/

/-- One element of the sequence `stream_response` yields: either a text
fragment or the final `"Error: ..."` fragment produced by its
`except` clause (modelled as a tagged chunk rather than a formatted
string). -/
inductive StreamChunk where
  | text (s : String)
  | errorChunk (e : CallError)
deriving DecidableEq

/-- Streaming `_stream_model`: resolution as in `_call_model`; OpenAI-compatible
providers and Anthropic have dedicated streaming branches; every other
provider falls through to a buffered `_call_model` whose whole content is
yielded as a single fragment.  Note the OpenAI-compatible streaming call
passes `request.max_tokens` through unresolved, and the Anthropic
streaming call defaults it to `4096` instead of the descriptor's limit. -/
def streamModel (clients : AIProvider → Bool) (up : Upstream) (sup : StreamUpstream)
    (request : AIModelRequest) : Except CallError (List String) :=
  match lookupModel request.model_id with
  | none => .error (.unknownModel request.model_id)
  | some mi =>
    if clients mi.provider then
      match mi.provider with
      | .openai | .xai | .deepseek | .ollama | .mistral =>
        match sup.openai mi.provider
            { model := request.model_id, messages := request.messages,
              max_tokens := request.max_tokens, temperature := request.temperature } with
        | .ok chunks => .ok chunks
        | .error s => .error (.providerCallFailed s)
      | .anthropic =>
        let sys := anthropicSystemOf request.messages
        match sup.anthropic
            { model := request.model_id, max_tokens := request.max_tokens.getD 4096,
              temperature := request.temperature,
              system := if sys = "" then none else some sys,
              messages := anthropicMessagesOf request.messages } with
        | .ok chunks => .ok chunks
        | .error s => .error (.providerCallFailed s)
      | _ => (callModel clients up request).map (fun resp => [resp.content])
    else .error (.clientNotConfigured mi.provider)

/-- Streaming `stream_response`: forwards the fragments of `_stream_model` and turns
a raised error into one final error fragment. -/
def streamResponse (clients : AIProvider → Bool) (up : Upstream) (sup : StreamUpstream)
    (request : AIModelRequest) : List StreamChunk :=
  match streamModel clients up sup request with
  | .ok chunks => chunks.map StreamChunk.text
  | .error e => [StreamChunk.errorChunk e]

/-! ## Heap model for `get_usage_stats`

`get_usage_stats` returns `self.usage_stats.copy()` — a *shallow* copy: a
new dict object whose slots hold the same `ModelUsageStats` object
references.  Object identity is invisible to a value-level embedding, so
this section models the relevant Python heap explicitly: stats objects and
dict objects live at numeric addresses, a dict maps model ids to stats
addresses, and the tracker's dict is itself an address. -/

/-- Total list indexing with a default (the helper is self-contained so
that its lemmas can be proved by direct induction). -/
def nthD {α : Type} (l : List α) (i : Nat) (d : α) : α :=
  match l, i with
  | [], _ => d
  | a :: _, 0 => a
  | _ :: t, Nat.succ j => nthD t j d

/-- Optional list indexing. -/
def nthOpt {α : Type} (l : List α) (i : Nat) : Option α :=
  match l, i with
  | [], _ => none
  | a :: _, 0 => some a
  | _ :: t, Nat.succ j => nthOpt t j

/-- In-place store update at an address (identity when out of range). -/
def setNth {α : Type} (l : List α) (i : Nat) (v : α) : List α :=
  match l, i with
  | [], _ => []
  | _ :: t, 0 => v :: t
  | a :: t, Nat.succ j => a :: setNth t j v

/-- The slice of the Python heap relevant to the tracker: the store of
`ModelUsageStats` objects and the store of dict objects (each dict is an
association list from model id to a stats-object address). -/
structure PyHeap where
  statsHeap : List ModelUsageStats
  dictHeap : List (List (String × Nat))
deriving DecidableEq

/-- Reading a model's stats through a dict address (what any holder of the
dict observes). -/
def viewStats (h : PyHeap) (dictAddr : Nat) (key : String) : Option ModelUsageStats :=
  (List.lookup key (nthD h.dictHeap dictAddr [])).bind (fun a => nthOpt h.statsHeap a)

/-- Snapshot `get_usage_stats` in the heap model: allocate a *new* dict object
containing the same key-to-address slots (Python's `dict.copy()`), and
return its address. -/
def snapshotDict (h : PyHeap) (serviceAddr : Nat) : PyHeap × Nat :=
  ({ h with dictHeap := h.dictHeap ++ [nthD h.dictHeap serviceAddr []] },
   h.dictHeap.length)

/-- A caller mutating a `ModelUsageStats` object in place (e.g. assigning
one of its fields) through the object's address. -/
def writeStats (h : PyHeap) (addr : Nat) (v : ModelUsageStats) : PyHeap :=
  { h with statsHeap := setNth h.statsHeap addr v }

/-- A caller removing a key from a dict object (`del snapshot[key]`):
mutates only that dict object. -/
def dictRemove (h : PyHeap) (dAddr : Nat) (key : String) : PyHeap :=
  let pruned := (nthD h.dictHeap dAddr []).filter (fun p => !(p.1 == key))
  { h with dictHeap := setNth h.dictHeap dAddr pruned }

/-! ## Concrete scenarios used by counterexamples and witnesses -/

/-- Error count a reporting caller reads for a model (missing entry reads
as the dataclass defaults). -/
def errCount (d : UsageDict) (k : String) : Nat :=
  ((List.lookup k d).getD emptyStats).error_count

/-- Request count recorded for a model. -/
def reqCount (d : UsageDict) (k : String) : Nat :=
  ((List.lookup k d).getD emptyStats).total_requests

/-- Token total recorded for a model. -/
def tokCount (d : UsageDict) (k : String) : Nat :=
  ((List.lookup k d).getD emptyStats).total_tokens

/-- The spec's scenario request: `{model_id: "gpt-4", messages:
[{"role":"user","content":"hi"}]}`. -/
def requestW : AIModelRequest :=
  { model_id := "gpt-4", provider := .openai, messages := [{ role := "user", content := "hi" }],
    max_tokens := none, temperature := mkRat 7 10, stream := false, context := none }

/-- Configuration with fallback list `["gpt-3.5-turbo"]`. -/
def cfgW : MultiModelConfig :=
  { default_model := "gpt-4", models := [], fallback_models := ["gpt-3.5-turbo"],
    enable_model_switching := true, enable_cost_optimization := false }

/-- Only the OpenAI client is configured. -/
def clientsW : AIProvider → Bool := fun p => p == .openai

/-- Oracle for the fallback scenario: the primary call for `"gpt-4"`
times out, the call for `"gpt-3.5-turbo"` succeeds reporting 50 total
tokens. -/
def upW : Upstream :=
  { openai := fun _ c =>
      if c.model = "gpt-3.5-turbo" then
        .ok { content := "hello", usage := some ⟨20, 30, 50⟩, finish_reason := some "stop" }
      else .error "timeout",
    anthropic := fun _ => .error "not configured",
    google := fun _ => .error "not configured" }

/-- The response the fallback attempt produces in that scenario. -/
def respW : AIModelResponse :=
  { content := "hello", model_id := "gpt-3.5-turbo", provider := .openai,
    usage := some ⟨20, 30, 50⟩, finish_reason := some "stop", metadata := none }

/-- Oracle for which every OpenAI-shaped call fails, with distinct error
details for the primary and the fallback model. -/
def upTwoErrors : Upstream :=
  { openai := fun _ c =>
      if c.model = "gpt-4" then .error "primary-error" else .error "fallback-error",
    anthropic := fun _ => .error "not configured",
    google := fun _ => .error "not configured" }

/-- A request naming a model id absent from the static registry. -/
def requestUnknown : AIModelRequest :=
  { model_id := "no-such-model", provider := .openai,
    messages := [{ role := "user", content := "hi" }],
    max_tokens := none, temperature := mkRat 7 10, stream := false, context := none }

/-- Oracle under which every OpenAI-shaped call succeeds. -/
def upAllOk : Upstream :=
  { openai := fun _ _ =>
      .ok { content := "ok", usage := some ⟨1, 2, 3⟩, finish_reason := some "stop" },
    anthropic := fun _ => .error "not configured",
    google := fun _ => .error "not configured" }

/-- The response a successful `"gpt-4"` call produces under `upAllOk`. -/
def respOk4 : AIModelResponse :=
  { content := "ok", model_id := "gpt-4", provider := .openai,
    usage := some ⟨1, 2, 3⟩, finish_reason := some "stop", metadata := none }

/-- Streaming scenario: only the Cohere client is configured. -/
def clientsCohere : AIProvider → Bool := fun p => p == .cohere

/-- A streaming request for the Cohere model. -/
def requestCohere : AIModelRequest :=
  { model_id := "command-r-plus", provider := .cohere,
    messages := [{ role := "user", content := "hi" }],
    max_tokens := none, temperature := mkRat 7 10, stream := true, context := none }

/-- Streaming oracles that would happily stream if they were reached. -/
def supAllOk : StreamUpstream :=
  { openai := fun _ _ => .ok ["a", "b"],
    anthropic := fun _ => .ok ["a", "b"] }

/-- Streaming scenario: only the Google client is configured. -/
def clientsGoogle : AIProvider → Bool := fun p => p == .google

/-- A streaming request for the Gemini model. -/
def requestGemini : AIModelRequest :=
  { model_id := "gemini-pro", provider := .google,
    messages := [{ role := "user", content := "hi" }],
    max_tokens := none, temperature := mkRat 7 10, stream := true, context := none }

/-- Oracle whose Gemini endpoint succeeds. -/
def upGoogleOk : Upstream :=
  { openai := fun _ _ => .error "not configured",
    anthropic := fun _ => .error "not configured",
    google := fun _ =>
      .ok { text := "gtext", usage_metadata := some ⟨1, 2, 3⟩, finish_reason := some "STOP" } }

/-- The buffered response of the Gemini call under `upGoogleOk`. -/
def respGemini : AIModelResponse :=
  { content := "gtext", model_id := "gemini-pro", provider := .google,
    usage := some ⟨1, 2, 3⟩, finish_reason := some "STOP", metadata := none }

/-- Heap scenario: one recorded model, the tracker's dict at address 0
mapping `"gpt-4"` to the stats object at address 0. -/
def heapW : PyHeap :=
  { statsHeap := [{ total_requests := 1, total_tokens := 50, total_cost := 0,
                    avg_response_time := 1, error_count := 0, last_used := none }],
    dictHeap := [[("gpt-4", 0)]] }

/-- The heap after taking a snapshot of the tracker's dict. -/
def heapWSnap : PyHeap := (snapshotDict heapW 0).1

/-- A stats record a caller writes through the snapshot. -/
def mutatedStats : ModelUsageStats :=
  { total_requests := 1, total_tokens := 50, total_cost := 0,
    avg_response_time := 1, error_count := 99, last_used := none }

/-! # Theorems -/

/-! ## Helper lemmas -/

/-- Projection: `_update_usage_stats` increments the request count. -/
theorem updateStatsEntry_requests (s : ModelUsageStats) (mi : Option ModelInfo)
    (usage : Option UsageTokens) (start now : ℚ) :
    (updateStatsEntry s mi usage start now).total_requests = s.total_requests + 1 := rfl

/-- Projection: the running-average update of `_update_usage_stats`. -/
theorem updateStatsEntry_avg (s : ModelUsageStats) (mi : Option ModelInfo)
    (usage : Option UsageTokens) (start now : ℚ) :
    (updateStatsEntry s mi usage start now).avg_response_time
      = (s.avg_response_time * (((s.total_requests + 1 : Nat) : ℚ) - 1) + (now - start))
          / ((s.total_requests + 1 : Nat) : ℚ) := rfl

/-- Each `iterateSuccess` step counts one request per call. -/
theorem iterateSuccess_requests (mi : Option ModelInfo) (N T : Nat) (E : ℚ) :
    (iterateSuccess mi N T E).total_requests = N := by
  induction N with
  | zero => rfl
  | succ k ih => simp [iterateSuccess, updateStatsEntry_requests, ih]

/-- Each `iterateSuccess` step accumulates `T` tokens per call. -/
theorem iterateSuccess_tokens (mi : Option ModelInfo) (N T : Nat) (E : ℚ) :
    (iterateSuccess mi N T E).total_tokens = N * T := by
  induction N with
  | zero => simp [iterateSuccess, emptyStats]
  | succ k ih =>
    show (iterateSuccess mi k T E).total_tokens + T = (k + 1) * T
    rw [ih, Nat.succ_mul]

/-- After at least one call the running average equals the common elapsed
time `E`. -/
theorem iterateSuccess_avg (mi : Option ModelInfo) (N T : Nat) (E : ℚ)
    (hN : 1 ≤ N) : (iterateSuccess mi N T E).avg_response_time = E := by
  induction N with
  | zero => exact absurd hN (by simp)
  | succ k ih =>
    have hreq : (iterateSuccess mi k T E).total_requests = k :=
      iterateSuccess_requests mi k T E
    show (updateStatsEntry (iterateSuccess mi k T E) mi (some ⟨0, 0, T⟩) 0 E).avg_response_time = E
    rw [updateStatsEntry_avg, hreq]
    rcases Nat.eq_zero_or_pos k with hk | hk
    · subst hk
      show ((iterateSuccess mi 0 T E).avg_response_time * (((0 + 1 : Nat) : ℚ) - 1) + (E - 0))
          / ((0 + 1 : Nat) : ℚ) = E
      norm_num [iterateSuccess]
    · rw [ih hk]
      have hne : ((k + 1 : Nat) : ℚ) ≠ 0 := by positivity
      field_simp
      ring

/-- Every adapter tags the response with the request's model id and the
descriptor's provider (`_call_openai`). -/
theorem call_openai_fields {up : Upstream} {r : AIModelRequest} {mi : ModelInfo}
    {resp : AIModelResponse} (h : call_openai up r mi = .ok resp) :
    resp.model_id = r.model_id ∧ resp.provider = mi.provider := by
  simp only [call_openai] at h
  split at h
  · exact Except.noConfusion h
  · split at h
    · exact Except.noConfusion h
    · cases h; exact ⟨rfl, rfl⟩

/-- As `call_openai_fields`, for `_call_openai_compatible`. -/
theorem call_openai_compatible_fields {up : Upstream} {r : AIModelRequest} {mi : ModelInfo}
    {resp : AIModelResponse} (h : call_openai_compatible up r mi = .ok resp) :
    resp.model_id = r.model_id ∧ resp.provider = mi.provider := by
  simp only [call_openai_compatible] at h
  split at h
  · exact Except.noConfusion h
  · cases h; exact ⟨rfl, rfl⟩

/-- As `call_openai_fields`, for `_call_anthropic`. -/
theorem call_anthropic_fields {up : Upstream} {r : AIModelRequest} {mi : ModelInfo}
    {resp : AIModelResponse} (h : call_anthropic up r mi = .ok resp) :
    resp.model_id = r.model_id ∧ resp.provider = mi.provider := by
  simp only [call_anthropic] at h
  split at h
  · exact Except.noConfusion h
  · cases h; exact ⟨rfl, rfl⟩

/-- As `call_openai_fields`, for `_call_google`. -/
theorem call_google_fields {up : Upstream} {r : AIModelRequest} {mi : ModelInfo}
    {resp : AIModelResponse} (h : call_google up r mi = .ok resp) :
    resp.model_id = r.model_id ∧ resp.provider = mi.provider := by
  simp only [call_google] at h
  split at h
  · exact Except.noConfusion h
  · cases h; exact ⟨rfl, rfl⟩

/-- A successful `_call_model` returns a response tagged with the
request's model id and with the provider of the registry descriptor the
id resolves to. -/
theorem callModel_fields {clients : AIProvider → Bool} {up : Upstream}
    {r : AIModelRequest} {resp : AIModelResponse}
    (h : callModel clients up r = .ok resp) :
    resp.model_id = r.model_id
    ∧ ∃ mi, lookupModel r.model_id = some mi ∧ resp.provider = mi.provider := by
  simp only [callModel] at h
  split at h
  · exact Except.noConfusion h
  · rename_i mi hmi
    split at h
    · split at h
      · exact ⟨(call_openai_fields h).1, mi, hmi, (call_openai_fields h).2⟩
      · exact ⟨(call_anthropic_fields h).1, mi, hmi, (call_anthropic_fields h).2⟩
      · exact ⟨(call_google_fields h).1, mi, hmi, (call_google_fields h).2⟩
      · exact ⟨(call_openai_compatible_fields h).1, mi, hmi, (call_openai_compatible_fields h).2⟩
      · exact ⟨(call_openai_compatible_fields h).1, mi, hmi, (call_openai_compatible_fields h).2⟩
      · exact ⟨(call_openai_compatible_fields h).1, mi, hmi, (call_openai_compatible_fields h).2⟩
      · exact ⟨(call_openai_compatible_fields h).1, mi, hmi, (call_openai_compatible_fields h).2⟩
      · exact Except.noConfusion h
    · exact Except.noConfusion h

/-- A success of the fallback loop comes from a single plain `_call_model`
on a copied request naming some member of the list that differs from the
original model id (no nested fallback is involved). -/
theorem tryFallbacks_some {clients : AIProvider → Bool} {up : Upstream}
    {r : AIModelRequest} {start now : ℚ} {d : UsageDict} {lst : List String}
    {resp : AIModelResponse} {d' : UsageDict}
    (h : tryFallbacks clients up r start now d lst = some (resp, d')) :
    ∃ fb mi, fb ∈ lst ∧ fb ≠ r.model_id ∧ lookupModel fb = some mi ∧
      callModel clients up { r with model_id := fb, provider := mi.provider } = .ok resp := by
  induction lst with
  | nil => exact Option.noConfusion h
  | cons fb rest ih =>
    simp only [tryFallbacks] at h
    split at h
    · obtain ⟨fb', mi, hmem, hne, hlk, hcall⟩ := ih h
      exact ⟨fb', mi, List.mem_cons_of_mem _ hmem, hne, hlk, hcall⟩
    · rename_i hne
      split at h
      · obtain ⟨fb', mi, hmem, hne', hlk, hcall⟩ := ih h
        exact ⟨fb', mi, List.mem_cons_of_mem _ hmem, hne', hlk, hcall⟩
      · rename_i mi hmi
        split at h
        · rename_i resp0 hcall
          simp only [Option.some.injEq, Prod.mk.injEq] at h
          exact ⟨fb, mi, List.mem_cons_self _ _, hne, hmi, h.1 ▸ hcall⟩
        · obtain ⟨fb', mi', hmem, hne', hlk, hcall⟩ := ih h
          exact ⟨fb', mi', List.mem_cons_of_mem _ hmem, hne', hlk, hcall⟩

/-! ## C5 — registry lookup -/

/-- C5 (counterexample): the claim "for every id present in the static
model table, looking the id up returns a descriptor whose id field equals
the queried id" fails at the table key `"claude-3-opus"`: the stored
descriptor's id is the versioned `"claude-3-opus-20240229"`. -/
theorem c5_lookup_counterexample :
    (lookupModel "claude-3-opus").map ModelInfo.id = some "claude-3-opus-20240229"
    ∧ "claude-3-opus-20240229" ≠ "claude-3-opus" := by decide

/-- C5 (amended): for every id present as a key of the static table,
lookup succeeds and returns exactly the descriptor stored under that key;
the returned descriptor's id field equals the queried key for every
non-alias key, and differs from it for each of the five alias keys (three
Claude, two Mistral, whose descriptors carry versioned/`-latest` ids);
lookup of any id not among the table keys returns not-found. -/
theorem c5_lookup_amended (key : String) :
    (∀ mi, (key, mi) ∈ AVAILABLE_MODELS →
        lookupModel key = some mi
        ∧ (key ∉ aliasKeys → mi.id = key)
        ∧ (key ∈ aliasKeys → mi.id ≠ key))
    ∧ (key ∉ AVAILABLE_MODELS.map Prod.fst → lookupModel key = none) := by
  constructor
  · intro mi hmem
    have htab : ∀ p ∈ AVAILABLE_MODELS,
        lookupModel p.1 = some p.2
        ∧ (p.1 ∉ aliasKeys → p.2.id = p.1)
        ∧ (p.1 ∈ aliasKeys → p.2.id ≠ p.1) := by decide
    exact htab (key, mi) hmem
  · intro hnot
    have hfind : AVAILABLE_MODELS.find? (fun p => p.1 == key) = none := by
      rw [List.find?_eq_none]
      intro p hp hbeq
      exact hnot (by
        have : p.1 = key := by simpa using hbeq
        rw [← this]
        exact List.mem_map_of_mem Prod.fst hp)
    simp [lookupModel, hfind]

/-- C5 witness: the amended lookup theorem at an ordinary key (`"gpt-4"`:
lookup returns the stored descriptor and its id equals the key), at an
alias key (`"mistral-large"`: lookup returns the stored descriptor, whose
id differs from the key), and at an absent id. -/
theorem c5_lookup_witness :
    (lookupModel "gpt-4" = some gpt4Info ∧ gpt4Info.id = "gpt-4")
    ∧ (lookupModel "mistral-large" = some mistralLargeInfo
        ∧ mistralLargeInfo.id ≠ "mistral-large")
    ∧ lookupModel "totally-absent" = none :=
  ⟨⟨((c5_lookup_amended "gpt-4").1 gpt4Info (by decide)).1,
    ((c5_lookup_amended "gpt-4").1 gpt4Info (by decide)).2.1 (by decide)⟩,
   ⟨((c5_lookup_amended "mistral-large").1 mistralLargeInfo (by decide)).1,
    ((c5_lookup_amended "mistral-large").1 mistralLargeInfo (by decide)).2.2 (by decide)⟩,
   (c5_lookup_amended "totally-absent").2 (by decide)⟩

/-! ## C6 — cheapest-N query -/

/-- C6: `get_cheapest_models(capability, n)` returns at most `n`
descriptors, each containing the capability and having a non-null cost,
sorted non-decreasing by cost-per-1000-tokens, with equal-cost descriptors
in their original static-table order (stable sort). -/
theorem c6_cheapest_models (cap : ModelCapability) (n : Nat) :
    (get_cheapest_models cap n).length ≤ n
    ∧ (∀ m ∈ get_cheapest_models cap n,
        cap ∈ m.capabilities ∧ m.cost_per_1k_tokens ≠ none)
    ∧ (get_cheapest_models cap n).Pairwise
        (fun a b => costOf a ≤ costOf b ∧ (costOf a = costOf b → tableIdx a < tableIdx b)) := by
  have heq : get_cheapest_models cap n
      = (sortByCost ((get_models_by_capability cap).filter
          (fun m => m.cost_per_1k_tokens.isSome))).take n := rfl
  have hsorted :
      (sortByCost ((get_models_by_capability cap).filter
          (fun m => m.cost_per_1k_tokens.isSome))).Pairwise
        (fun a b => costOf a ≤ costOf b ∧ (costOf a = costOf b → tableIdx a < tableIdx b)) := by
    cases cap <;> decide
  have hmem :
      ∀ m ∈ sortByCost ((get_models_by_capability cap).filter
          (fun m => m.cost_per_1k_tokens.isSome)),
        cap ∈ m.capabilities ∧ m.cost_per_1k_tokens ≠ none := by
    cases cap <;> decide
  refine ⟨?_, ?_, ?_⟩
  · rw [heq, List.length_take]
    exact min_le_left _ _
  · intro m hm
    rw [heq] at hm
    exact hmem m ((List.take_sublist _ _).mem hm)
  · rw [heq]
    exact hsorted.sublist (List.take_sublist _ _)

/-- C6 witness: the cheapest-5 chat query at the concrete table, applied
to the member `claude3HaikuInfo`. -/
theorem c6_cheapest_models_witness :
    (get_cheapest_models .chat 5).length ≤ 5
    ∧ (ModelCapability.chat ∈ claude3HaikuInfo.capabilities
        ∧ claude3HaikuInfo.cost_per_1k_tokens ≠ none) :=
  ⟨(c6_cheapest_models .chat 5).1,
   (c6_cheapest_models .chat 5).2.1 claude3HaikuInfo (by decide)⟩

/-! ## C7 — success accounting -/

/-- C7: `_update_usage_stats` increments the request count by 1; when
usage is present it adds the reported total tokens and a cost delta of
`(total_tokens/1000) * cost_per_1k_tokens` (0 when the cost is null); the
running average is updated as `new_avg = (old_avg*(n-1) + elapsed)/n` with
`n` the post-increment count; consequently, after `N` consecutive
successful calls each reporting `T` total tokens with elapsed time `E`,
the entry shows `N` requests, `N*T` tokens, and average latency exactly
`E`. -/
theorem c7_usage_accounting :
    (∀ (s : ModelUsageStats) (mi : Option ModelInfo) (usage : Option UsageTokens)
        (start now : ℚ),
        (updateStatsEntry s mi usage start now).total_requests = s.total_requests + 1
        ∧ (∀ u, usage = some u →
            (updateStatsEntry s mi usage start now).total_tokens
              = s.total_tokens + u.total_tokens
            ∧ (updateStatsEntry s mi usage start now).total_cost
              = s.total_cost + ((u.total_tokens : ℚ) / 1000) * ((mi.map costOf).getD 0))
        ∧ (updateStatsEntry s mi usage start now).avg_response_time
            = (s.avg_response_time * (s.total_requests : ℚ) + (now - start))
                / ((s.total_requests : ℚ) + 1))
    ∧ (∀ (mi : Option ModelInfo) (N T : Nat) (E : ℚ),
        (iterateSuccess mi N T E).total_requests = N
        ∧ (iterateSuccess mi N T E).total_tokens = N * T
        ∧ (1 ≤ N → (iterateSuccess mi N T E).avg_response_time = E)) := by
  constructor
  · intro s mi usage start now
    refine ⟨rfl, ?_, ?_⟩
    · rintro u rfl
      constructor
      · rfl
      · show (match mi, some u with
            | some info, some u =>
              match info.cost_per_1k_tokens with
              | some c =>
                if c = 0 then s.total_cost
                else s.total_cost + ((u.total_tokens : ℚ) / 1000) * c
              | none => s.total_cost
            | _, _ => s.total_cost)
          = s.total_cost + ((u.total_tokens : ℚ) / 1000) * ((mi.map costOf).getD 0)
        match mi with
        | none => simp
        | some info =>
          match hc : info.cost_per_1k_tokens with
          | none => simp [costOf, hc]
          | some c =>
            by_cases h0 : c = 0
            · simp [costOf, hc, h0]
            · simp [costOf, hc, h0]
    · rw [updateStatsEntry_avg]
      push_cast
      ring_nf
  · intro mi N T E
    exact ⟨iterateSuccess_requests mi N T E, iterateSuccess_tokens mi N T E,
      fun h => iterateSuccess_avg mi N T E h⟩

/-- C7 witness: one concrete update (50 total tokens) and the state after
3 consecutive calls with elapsed time 2. -/
theorem c7_usage_accounting_witness :
    (updateStatsEntry emptyStats (some gpt4Info) (some ⟨20, 30, 50⟩) 0 2).total_tokens
      = emptyStats.total_tokens + 50
    ∧ (iterateSuccess (some gpt4Info) 3 50 2).avg_response_time = 2 :=
  ⟨((c7_usage_accounting.1 emptyStats (some gpt4Info) (some ⟨20, 30, 50⟩) 0 2).2.1
      ⟨20, 30, 50⟩ rfl).1,
   (c7_usage_accounting.2 (some gpt4Info) 3 50 2).2.2 (by decide)⟩

/-! ## C1 — fallback invariant -/

/-- C1: when the primary call fails, fallback is on, a config with a
non-empty fallback list is present and `generate_response` nevertheless
returns a success, then the returned response is tagged with a member of
the fallback list different from the primary model id, and it was produced
by a single plain `_call_model` on the rewritten request (fallback
suppressed: no nested chain). -/
theorem c1_fallback_invariant (cfg : MultiModelConfig) (clients : AIProvider → Bool)
    (up : Upstream) (d : UsageDict) (request : AIModelRequest) (start now : ℚ)
    (resp : AIModelResponse) (d' : UsageDict) (e : CallError)
    (hfail : callModel clients up request = .error e)
    (_hne : cfg.fallback_models ≠ [])
    (hok : generateResponse (some cfg) clients up true d request start now = (.ok resp, d')) :
    resp.model_id ∈ cfg.fallback_models
    ∧ resp.model_id ≠ request.model_id
    ∧ ∃ mi, lookupModel resp.model_id = some mi
        ∧ callModel clients up
            { request with model_id := resp.model_id, provider := mi.provider } = .ok resp := by
  simp only [generateResponse, hfail, if_true] at hok
  cases htf : tryFallbacks clients up request start now d cfg.fallback_models with
  | none =>
    rw [htf] at hok
    exact absurd (congrArg Prod.fst hok) (by simp)
  | some pair =>
    obtain ⟨r0, d0⟩ := pair
    rw [htf] at hok
    have hr0 : r0 = resp := by
      have := congrArg Prod.fst hok
      simpa using this
    subst hr0
    obtain ⟨fb, mi, hmem, hnefb, hlk, hcall⟩ := tryFallbacks_some htf
    have hmid : r0.model_id = fb := (callModel_fields hcall).1
    rw [hmid]
    exact ⟨hmem, hnefb, mi, hlk, hcall⟩

/-- C1 witness: the spec's scenario — primary `"gpt-4"` times out, the
configured fallback `"gpt-3.5-turbo"` answers. -/
theorem c1_fallback_invariant_witness :
    respW.model_id ∈ cfgW.fallback_models
    ∧ respW.model_id ≠ requestW.model_id
    ∧ ∃ mi, lookupModel respW.model_id = some mi
        ∧ callModel clientsW upW
            { requestW with model_id := respW.model_id, provider := mi.provider } = .ok respW :=
  c1_fallback_invariant cfgW clientsW upW [] requestW 0 1 respW
    (updateUsageStats [] "gpt-3.5-turbo" 0 1 respW)
    (.providerCallFailed "timeout") (by decide) (by decide) rfl

/-! ## C2 — fallback exhaustion error payload -/

/-- C2: when both the primary `"gpt-4"` and the sole fallback
`"gpt-3.5-turbo"` fail with distinct errors, the raised failure wraps the
*primary* attempt's error (`"primary-error"`), even though the last error
encountered among the attempts was the fallback's (`"fallback-error"`):
the `"All models failed. Last error: ..."` message interpolates the outer
`except` binding, which the fallback loop never updates.  No response is
returned (`.error`), and the primary model's error count is incremented. -/
theorem c2_exhaustion_error_payload :
    (generateResponse (some cfgW) clientsW upTwoErrors true [] requestW 0 1).1
      = .error (.allModelsFailed (.providerCallFailed "primary-error"))
    ∧ errCount (generateResponse (some cfgW) clientsW upTwoErrors true [] requestW 0 1).2 "gpt-4" = 1
    ∧ CallError.providerCallFailed "primary-error"
        ≠ CallError.providerCallFailed "fallback-error" := by decide

/-! ## C3 — fallback scenario accounting -/

/-- C3 (counterexample): in the spec's scenario (primary `"gpt-4"` fails,
fallback `"gpt-3.5-turbo"` succeeds with 50 total tokens) the tracker's
error count for `"gpt-4"` is `0`, not `1` as claimed:
`_update_error_stats` runs only when every model failed, and a successful
fallback returns before reaching it. -/
theorem c3_fallback_scenario_counterexample :
    errCount (generateResponse (some cfgW) clientsW upW true [] requestW 0 1).2 "gpt-4" = 0
    ∧ (0 : Nat) ≠ 1 := by decide

/-- C3 (amended): in that scenario the returned response's model id is
`"gpt-3.5-turbo"` and the tracker records one successful request with 50
tokens for `"gpt-3.5-turbo"`, but no error is recorded for `"gpt-4"`. -/
theorem c3_fallback_scenario_amended :
    (generateResponse (some cfgW) clientsW upW true [] requestW 0 1).1 = .ok respW
    ∧ respW.model_id = "gpt-3.5-turbo"
    ∧ reqCount (generateResponse (some cfgW) clientsW upW true [] requestW 0 1).2 "gpt-3.5-turbo" = 1
    ∧ tokCount (generateResponse (some cfgW) clientsW upW true [] requestW 0 1).2 "gpt-3.5-turbo" = 50
    ∧ errCount (generateResponse (some cfgW) clientsW upW true [] requestW 0 1).2 "gpt-4" = 0 := by
  decide

/-! ## C4 — unknown model -/

/-- C4 (counterexample): a request for the unregistered id
`"no-such-model"` does make `_call_model` fail with the unknown-model
error, but with fallback enabled `generate_response` catches it and *does*
attempt the fallback list: here the fallback `"gpt-3.5-turbo"` succeeds
and its response is returned, contradicting "no fallback model is
attempted for such a request". -/
theorem c4_unknown_model_counterexample :
    callModel clientsW upAllOk requestUnknown = .error (.unknownModel "no-such-model")
    ∧ (generateResponse (some cfgW) clientsW upAllOk true [] requestUnknown 0 1).1
        = .ok { content := "ok", model_id := "gpt-3.5-turbo", provider := .openai,
                usage := some ⟨1, 2, 3⟩, finish_reason := some "stop", metadata := none } := by
  decide

/-- C4 (amended): a request whose model id is not in the registry makes
`_call_model` fail fast with the unknown-model error before any provider
is contacted; `generate_response` treats it like any other failure, so
only with fallback disabled is it surfaced immediately — and then wrapped
as the all-models-failed error, with the primary id's error count
incremented. -/
theorem c4_unknown_model_amended (clients : AIProvider → Bool) (up : Upstream)
    (request : AIModelRequest) (hlk : lookupModel request.model_id = none) :
    callModel clients up request = .error (.unknownModel request.model_id)
    ∧ (∀ (cfg : Option MultiModelConfig) (d : UsageDict) (start now : ℚ),
        generateResponse cfg clients up false d request start now
          = (.error (.allModelsFailed (.unknownModel request.model_id)),
             updateErrorStats d request.model_id)) := by
  have hcall : callModel clients up request = .error (.unknownModel request.model_id) := by
    simp only [callModel, hlk]
  refine ⟨hcall, ?_⟩
  intro cfg d start now
  simp only [generateResponse, hcall]
  rfl

/-- C4 witness: the amended theorem at the concrete unregistered id with
fallback disabled. -/
theorem c4_unknown_model_witness :
    callModel clientsW upAllOk requestUnknown = .error (.unknownModel "no-such-model")
    ∧ generateResponse none clientsW upAllOk false [] requestUnknown 0 1
        = (.error (.allModelsFailed (.unknownModel "no-such-model")),
           updateErrorStats [] "no-such-model") :=
  ⟨(c4_unknown_model_amended clientsW upAllOk requestUnknown (by decide)).1,
   (c4_unknown_model_amended clientsW upAllOk requestUnknown (by decide)).2 none [] 0 1⟩

/-! ## C9 — provider derived from registry -/

/-- C9: `_call_model` never consults the caller-supplied
`request.provider`: changing only that field changes nothing, and a
successful response carries the registry descriptor's provider tag. -/
theorem c9_provider_not_trusted (clients : AIProvider → Bool) (up : Upstream)
    (request : AIModelRequest) (p : AIProvider) :
    callModel clients up { request with provider := p } = callModel clients up request
    ∧ (∀ resp mi, callModel clients up request = .ok resp →
        lookupModel request.model_id = some mi → resp.provider = mi.provider) := by
  constructor
  · rfl
  · intro resp mi h hlk
    obtain ⟨-, mi', hlk', hp⟩ := callModel_fields h
    rw [hlk] at hlk'
    cases hlk'
    exact hp

/-- C9 witness: a `"gpt-4"` request with its provider field forged as
Google dispatches identically, and the response is tagged with the
descriptor's provider. -/
theorem c9_provider_not_trusted_witness :
    callModel clientsW upAllOk { requestW with provider := .google }
      = callModel clientsW upAllOk requestW
    ∧ respOk4.provider = gpt4Info.provider :=
  ⟨(c9_provider_not_trusted clientsW upAllOk requestW .google).1,
   (c9_provider_not_trusted clientsW upAllOk requestW .google).2 respOk4 gpt4Info
     (by decide) (by decide)⟩

/-! ## C10 — streaming degradation for providers without a stream branch -/

/-- C10 (counterexample): for the Cohere model (configured client, no
dedicated streaming branch) the buffered degradation path itself raises
"Unsupported provider" inside `_call_model`, so the stream yields a single
*error* fragment, not the generated text as one fragment. -/
theorem c10_stream_cohere_counterexample :
    streamResponse clientsCohere upAllOk supAllOk requestCohere
      = [StreamChunk.errorChunk (.unsupportedProvider .cohere)]
    ∧ StreamChunk.errorChunk (.unsupportedProvider .cohere) ≠ StreamChunk.text "a" := by
  decide

/-- C10 (amended): for a registered model whose provider has a configured
client but no dedicated streaming branch (Google, Cohere, Azure),
`_stream_model` degrades to one buffered `_call_model`; when that buffered
call succeeds (e.g. Google) the stream yields its whole text as exactly
one fragment, and when it fails (Cohere/Azure have no buffered dispatch
branch either) the stream yields a single error fragment. -/
theorem c10_stream_degradation_amended (clients : AIProvider → Bool) (up : Upstream)
    (sup : StreamUpstream) (request : AIModelRequest) (mi : ModelInfo)
    (hlk : lookupModel request.model_id = some mi)
    (hp : mi.provider = .google ∨ mi.provider = .cohere ∨ mi.provider = .azure_openai)
    (hc : clients mi.provider = true) :
    streamModel clients up sup request
      = (callModel clients up request).map (fun resp => [resp.content])
    ∧ (∀ resp, callModel clients up request = .ok resp →
        streamResponse clients up sup request = [StreamChunk.text resp.content]) := by
  have hstream : streamModel clients up sup request
      = (callModel clients up request).map (fun resp => [resp.content]) := by
    simp only [streamModel, hlk, hc, if_true]
    rcases hp with h | h | h <;> rw [h]
  refine ⟨hstream, ?_⟩
  intro resp h
  simp only [streamResponse, hstream, h, Except.map, List.map]

/-- C10 witness: the Gemini model streams through the buffered path and
yields its whole text as one fragment. -/
theorem c10_stream_degradation_witness :
    streamResponse clientsGoogle upGoogleOk supAllOk requestGemini
      = [StreamChunk.text respGemini.content] :=
  (c10_stream_degradation_amended clientsGoogle upGoogleOk supAllOk requestGemini
      geminiProInfo (by decide) (Or.inl rfl) (by decide)).2 respGemini (by decide)

/-! ## C8 — snapshot of the usage-stats table -/

/-- Indexing the freshly appended element. -/
theorem nthD_append_self {α : Type} (l : List α) (x d : α) :
    nthD (l ++ [x]) l.length d = x := by
  induction l with
  | nil => rfl
  | cons a t ih => simpa [nthD] using ih

/-- Appending does not disturb indices below the old length. -/
theorem nthD_append_of_lt {α : Type} (l : List α) (x d : α) (i : Nat)
    (h : i < l.length) : nthD (l ++ [x]) i d = nthD l i d := by
  induction l generalizing i with
  | nil => exact absurd h (by simp)
  | cons a t ih =>
    cases i with
    | zero => rfl
    | succ j => exact ih j (Nat.lt_of_succ_lt_succ h)

/-- Writing one address does not disturb a different address. -/
theorem nthD_setNth_ne {α : Type} (l : List α) (i j : Nat) (v d : α)
    (h : j ≠ i) : nthD (setNth l i v) j d = nthD l j d := by
  induction l generalizing i j with
  | nil => rfl
  | cons a t ih =>
    cases i with
    | zero =>
      cases j with
      | zero => exact absurd rfl h
      | succ _ => rfl
    | succ i' =>
      cases j with
      | zero => rfl
      | succ j' => exact ih i' j' (fun hh => h (by rw [hh]))

/-- Reading back an in-range write. -/
theorem nthOpt_setNth_self {α : Type} (l : List α) (i : Nat) (v : α)
    (h : i < l.length) : nthOpt (setNth l i v) i = some v := by
  induction l generalizing i with
  | nil => exact absurd h (by simp)
  | cons a t ih =>
    cases i with
    | zero => rfl
    | succ j => exact ih j (Nat.lt_of_succ_lt_succ h)

/-- C8 (counterexample): the snapshot returned by `get_usage_stats` shares
its per-model stats objects with the tracker.  In the one-model heap
`heapW`, the snapshot dict (address 1) maps `"gpt-4"` to stats address 0;
a caller writing through that address flips the error count the *tracker*
(dict address 0) observes from 0 to 99 — so a mutation performed on the
returned snapshot's entry does change the tracker's internal state. -/
theorem c8_snapshot_counterexample :
    List.lookup "gpt-4" (nthD heapWSnap.dictHeap (snapshotDict heapW 0).2 []) = some 0
    ∧ (viewStats heapWSnap 0 "gpt-4").map ModelUsageStats.error_count = some 0
    ∧ (viewStats (writeStats heapWSnap 0 mutatedStats) 0 "gpt-4").map
        ModelUsageStats.error_count = some 99 := by decide

/-- C8 (amended): `get_usage_stats` returns a *shallow* copy: a fresh dict
object (key-level operations such as removing a key from the snapshot do
not affect the tracker's dict), whose slots hold the *same* stats-object
addresses, so writing a per-model entry through the snapshot is visible
through the tracker's dict. -/
theorem c8_snapshot_amended (h : PyHeap) (sAddr : Nat)
    (hs : sAddr < h.dictHeap.length) :
    (snapshotDict h sAddr).2 ≠ sAddr
    ∧ nthD (snapshotDict h sAddr).1.dictHeap (snapshotDict h sAddr).2 []
        = nthD h.dictHeap sAddr []
    ∧ (∀ key, viewStats (dictRemove (snapshotDict h sAddr).1 (snapshotDict h sAddr).2 key)
          sAddr key = viewStats (snapshotDict h sAddr).1 sAddr key)
    ∧ (∀ key a v,
        List.lookup key
            (nthD (snapshotDict h sAddr).1.dictHeap (snapshotDict h sAddr).2 []) = some a →
        a < h.statsHeap.length →
        viewStats (writeStats (snapshotDict h sAddr).1 a v) sAddr key = some v) := by
  have hfresh : (snapshotDict h sAddr).2 ≠ sAddr := by
    show h.dictHeap.length ≠ sAddr
    omega
  have hcopy : nthD (snapshotDict h sAddr).1.dictHeap (snapshotDict h sAddr).2 []
      = nthD h.dictHeap sAddr [] := by
    show nthD (h.dictHeap ++ [nthD h.dictHeap sAddr []]) h.dictHeap.length [] = _
    exact nthD_append_self _ _ _
  refine ⟨hfresh, hcopy, ?_, ?_⟩
  · intro key
    show (List.lookup key (nthD (setNth (snapshotDict h sAddr).1.dictHeap
        (snapshotDict h sAddr).2 _) sAddr [])).bind _ = _
    rw [nthD_setNth_ne _ _ _ _ _ hfresh.symm]
    rfl
  · intro key a v hlook ha
    show (List.lookup key (nthD (h.dictHeap ++ [nthD h.dictHeap sAddr []]) sAddr [])).bind
        (fun addr => nthOpt (setNth h.statsHeap a v) addr) = some v
    rw [nthD_append_of_lt _ _ _ _ hs, ← hcopy, hlook]
    exact nthOpt_setNth_self _ _ _ ha

/-- C8 witness: the amended theorem applied to the concrete one-model
heap: the snapshot's dict address is fresh, and a write through the shared
entry address is read back through the tracker's dict. -/
theorem c8_snapshot_witness :
    (snapshotDict heapW 0).2 ≠ 0
    ∧ viewStats (writeStats (snapshotDict heapW 0).1 0 mutatedStats) 0 "gpt-4"
        = some mutatedStats :=
  ⟨(c8_snapshot_amended heapW 0 (by decide)).1,
   (c8_snapshot_amended heapW 0 (by decide)).2.2.2 "gpt-4" 0 mutatedStats
     (by decide) (by decide)⟩
